import Mathlib

/-!
Verification development for the iris estimator training driver
(`trainer/task.py`).  The driver's logic is embedded shallowly:

* the parsed `TF_CONFIG` JSON value becomes an inductive `Json` type
  (JSON numbers are modelled as integers; the cluster specifications the
  driver inspects carry integer task indices, and no fractional literal
  appears in any behaviour verified here);
* Python runtime errors (`TypeError`, `KeyError`, `json` decode errors)
  become an explicit `PyError` value carried in `Except`;
* `json.loads` is an external library routine, so it is passed in as an
  abstract `parse : String → Except String Json` parameter;
* the `tf.ConfigProto` object is modelled by the one field the driver
  sets, its `device_filters` list.
-/

deriving instance DecidableEq for Except

/-- Values produced by parsing a JSON document, as Python represents them
after `json.loads`.  Numbers are modelled as integers. -/
inductive Json where
  | null
  | bool (b : Bool)
  | num (n : Int)
  | str (s : String)
  | arr (elems : List Json)
  | obj (fields : List (String × Json))

/-- Python runtime errors that the embedded driver code can raise. -/
inductive PyError where
  | typeError
  | keyError
  | jsonDecodeError (msg : String)
deriving DecidableEq, Repr

/-- Model of `tf.ConfigProto`, restricted to the one field the driver
sets: the `device_filters` argument. -/
structure ConfigProto where
  device_filters : List String
deriving DecidableEq, Repr

/-- Python truthiness (`bool(x)`) for a parsed JSON value: empty
containers, empty strings, zero, `None` and `False` are falsy. -/
def Json.truthy : Json → Bool
  | .null => false
  | .bool b => b
  | .num n => n != 0
  | .str s => s != ""
  | .arr elems => !elems.isEmpty
  | .obj fields => !fields.isEmpty

/-- Key presence in a parsed JSON object (the object case of Python
membership `k in d`). -/
def hasField (fields : List (String × Json)) (k : String) : Bool :=
  fields.any (fun p => p.1 = k)

/-- Python membership test `k in x` for a string key `k`: key lookup on a
dict, element comparison on a list, substring test on a string, and a
`TypeError` on the remaining non-container values. -/
def membIn (k : String) : Json → Except PyError Bool
  | .obj fields => .ok (hasField fields k)
  | .arr elems => .ok (elems.any (fun e => match e with | .str t => t = k | _ => false))
  | .str s => .ok ((s.splitOn k).length != 1)
  | _ => .error .typeError

/-- Python subscript `x[k]` for a string key `k`: dict lookup (raising
`KeyError` when the key is absent), and a `TypeError` on every other
value (lists and strings require integer indices). -/
def Json.getItem (j : Json) (k : String) : Except PyError Json :=
  match j with
  | .obj fields =>
    match List.lookup k fields with
    | some v => .ok v
    | none => .error .keyError
  | _ => .error .typeError

/-- Python equality `x == lit` between a parsed JSON value and a string
literal: true exactly when `x` is the equal string (values of other
types compare unequal to a string, without error). -/
def Json.eqStr (j : Json) (s : String) : Bool :=
  match j with
  | .str t => t = s
  | _ => false

/-- Python `%d` string formatting of a parsed JSON value: integers format
as their decimal representation, booleans as `1`/`0` (Python booleans
are integers), and every other value raises a `TypeError`. -/
def formatD : Json → Except PyError String
  | .num n => .ok (toString n)
  | .bool b => .ok (if b then "1" else "0")
  | _ => .error .typeError

/-- Body of `_get_session_config_from_env_var` after the `json.loads`
call: from the parsed `TF_CONFIG` value, derive either `none` (no
restriction) or a `ConfigProto` with the device filters, following the
source line by line (truthiness test, the three membership tests in
order, then the `master`/`worker` dispatch with the fall-through to
`return None`). -/
def sessionConfigFromTfConfig (tf_config : Json) : Except PyError (Option ConfigProto) :=
  if tf_config.truthy then
    match membIn "task" tf_config with
    | .error e => .error e
    | .ok false => .ok none
    | .ok true =>
      match tf_config.getItem "task" with
      | .error e => .error e
      | .ok task =>
        match membIn "type" task with
        | .error e => .error e
        | .ok false => .ok none
        | .ok true =>
          match membIn "index" task with
          | .error e => .error e
          | .ok false => .ok none
          | .ok true =>
            match task.getItem "type" with
            | .error e => .error e
            | .ok ty =>
              if ty.eqStr "master" then
                .ok (some { device_filters := ["/job:ps", "/job:master"] })
              else if ty.eqStr "worker" then
                match task.getItem "index" with
                | .error e => .error e
                | .ok idx =>
                  match formatD idx with
                  | .error e => .error e
                  | .ok s =>
                    .ok (some { device_filters := ["/job:ps", "/job:worker/task:" ++ s] })
              else .ok none
  else .ok none

/-- Embedding of `_get_session_config_from_env_var`: read the `TF_CONFIG`
environment variable (defaulting to the two-character document of an
empty object when absent), parse it with the external JSON parser, and
derive the session configuration; a parse failure propagates as the
decode error. -/
def get_session_config_from_env_var (parse : String → Except String Json)
    (env : Option String) : Except PyError (Option ConfigProto) :=
  match parse (env.getD "{}") with
  | .error msg => .error (.jsonDecodeError msg)
  | .ok tf_config => sessionConfigFromTfConfig tf_config

/-- Cluster specification of the form the spec discusses, with a single
`task` object holding a `type` and an `index`. -/
def taskSpec (ty idx : Json) : Json :=
  Json.obj [("task", Json.obj [("type", ty), ("index", idx)])]

/-! ## CLI argument parsing (`get_args`)

The `argparse` configuration in `get_args` declares three required flags
and six optional flags with defaults.  The embedding represents a parsed
command line as one optional value per declared flag (the tokenisation
and the per-flag `type=` coercions belong to the external `argparse`
library); `get_args` then either reports the missing required flags as a
usage error, or assembles the argument record with the declared
defaults filled in.  The `0.01` learning-rate literal is modelled as the
rational it denotes. -/

/-- Command-line input to `get_args`: for each declared flag, the value
supplied on the command line, or `none` when the flag was omitted. -/
structure CliInput where
  train_files : Option (List String)
  eval_files : Option (List String)
  job_dir : Option String
  train_steps : Option Int
  eval_steps : Option Int
  num_epochs : Option Int
  learning_rate : Option Rat
  train_batch_size : Option Int
  eval_batch_size : Option Int
deriving DecidableEq, Repr

/-- Record of parsed arguments produced by `get_args` (the namespace
object, later wrapped into `HParams`). -/
structure Hyperparameters where
  train_files : List String
  eval_files : List String
  job_dir : String
  train_steps : Int
  eval_steps : Int
  num_epochs : Int
  learning_rate : Rat
  train_batch_size : Int
  eval_batch_size : Int
deriving DecidableEq, Repr

/-- Embedding of `get_args`: a usage error (process exit with non-zero
status) when any of the three `required=True` flags is missing, and
otherwise the argument record with each optional flag's declared
default (`400`, `100`, `200`, `0.01`, `32`, `32`) applied. -/
def get_args (cli : CliInput) : Except String Hyperparameters :=
  match cli.train_files, cli.eval_files, cli.job_dir with
  | some tf, some ef, some jd =>
    .ok
      { train_files := tf
        eval_files := ef
        job_dir := jd
        train_steps := cli.train_steps.getD 400
        eval_steps := cli.eval_steps.getD 100
        num_epochs := cli.num_epochs.getD 200
        learning_rate := cli.learning_rate.getD 0.01
        train_batch_size := cli.train_batch_size.getD 32
        eval_batch_size := cli.eval_batch_size.getD 32 }
  | _, _, _ => .error "usage: the arguments --train-files, --eval-files, --job-dir are required"

/-! ## Logging setup (`_setup_logging`)

The embedding tracks the process-wide logging state the function
mutates: the root logger's handler list and level, the `tensorflow`
logger's handler list, and the `TF_CPP_MIN_LOG_LEVEL` environment
variable. -/

/-- Output stream a logging handler writes to. -/
inductive OutStream where
  | stdout
  | stderr
deriving DecidableEq, Repr

/-- Model of a `logging.StreamHandler`: its stream and its level. -/
structure Handler where
  stream : OutStream
  level : Nat
deriving DecidableEq, Repr

/-- Numeric value of `logging.INFO`. -/
def INFO : Nat := 20

/-- Process-wide logging state touched by `_setup_logging`. -/
structure LoggingState where
  rootHandlers : List Handler
  rootLevel : Nat
  tfHandlers : List Handler
  tfCppMinLogLevel : Option String
deriving DecidableEq, Repr

/-- Embedding of `_setup_logging`: set the root logger's level to
`INFO`, remove every handler of the `tensorflow` logger (the `while`
loop), append a freshly created stdout handler at level `INFO` to the
root logger (`addHandler` appends, and the new object is never already
present), and set `TF_CPP_MIN_LOG_LEVEL` to the string `3`. -/
def setup_logging (s : LoggingState) : LoggingState :=
  { rootHandlers := s.rootHandlers ++ [{ stream := .stdout, level := INFO }]
    rootLevel := INFO
    tfHandlers := []
    tfCppMinLogLevel := some "3" }

/-- Handlers that emit a record logged at `INFO` on the root logger: the
root logger must be enabled for `INFO`, and each handler emits when its
own level is at most `INFO`.  The number of lines a single log call
produces is the length of this list. -/
def emittingHandlers (s : LoggingState) : List Handler :=
  if s.rootLevel ≤ INFO then s.rootHandlers.filter (fun h => h.level ≤ INFO) else []

/-! ## Training orchestration (`train_and_evaluate`)

The external framework objects are modelled by the arguments the driver
passes when constructing them: the estimator, the input functions and
the exporter are opaque collaborators, so each becomes a record of its
construction parameters. -/

/-- Arguments of a `model.input_fn` invocation as built by the driver's
lambdas. -/
structure InputFnCall where
  filename : List String
  batch_size : Int
  shuffle : Bool
deriving DecidableEq, Repr

/-- Arguments the driver passes to `tf.estimator.RunConfig`. -/
structure RunConfig where
  session_config : Option ConfigProto
  save_checkpoints_steps : Int
  save_summary_steps : Int
  model_dir : String
deriving DecidableEq, Repr

/-- Arguments the driver passes to `tf.estimator.TrainSpec`. -/
structure TrainSpec where
  input_fn : InputFnCall
  max_steps : Int
deriving DecidableEq, Repr

/-- Arguments the driver passes to `tf.estimator.FinalExporter`: the
exporter name (the serving-input function is an opaque collaborator). -/
structure FinalExporter where
  name : String
deriving DecidableEq, Repr

/-- Arguments the driver passes to `tf.estimator.EvalSpec`. -/
structure EvalSpec where
  input_fn : InputFnCall
  steps : Int
  exporters : List FinalExporter
  name : String
deriving DecidableEq, Repr

/-- Arguments the driver passes to `model.build_estimator`. -/
structure EstimatorCall where
  config : RunConfig
  learning_rate : Rat
  hidden_units : List Int
  num_classes : Int
deriving DecidableEq, Repr

/-- Objects assembled by `train_and_evaluate` and handed to the external
framework's `tf.estimator.train_and_evaluate` entry point. -/
structure TrainAndEvaluateCall where
  run_config : RunConfig
  train_spec : TrainSpec
  eval_spec : EvalSpec
  estimator : EstimatorCall
deriving DecidableEq, Repr

/-- Embedding of `train_and_evaluate`: derive the session configuration
from the environment (an error there propagates), then assemble the run
configuration, the training specification, the evaluation specification
with its final exporter, and the `model.build_estimator` invocation,
exactly as the source constructs them. -/
def train_and_evaluate (parse : String → Except String Json) (env : Option String)
    (hparams : Hyperparameters) : Except PyError TrainAndEvaluateCall :=
  match get_session_config_from_env_var parse env with
  | .error e => .error e
  | .ok sc =>
    let run_config : RunConfig :=
      { session_config := sc
        save_checkpoints_steps := 100
        save_summary_steps := 100
        model_dir := hparams.job_dir }
    let train_input_fn : InputFnCall :=
      { filename := hparams.train_files
        batch_size := hparams.train_batch_size
        shuffle := true }
    let train_spec : TrainSpec :=
      { input_fn := train_input_fn
        max_steps := hparams.train_steps }
    let exporter : FinalExporter := { name := "exporter" }
    let eval_input_fn : InputFnCall :=
      { filename := hparams.eval_files
        batch_size := hparams.eval_batch_size
        shuffle := false }
    let eval_spec : EvalSpec :=
      { input_fn := eval_input_fn
        steps := hparams.eval_steps
        exporters := [exporter]
        name := "iris-eval" }
    let estimator : EstimatorCall :=
      { config := run_config
        learning_rate := hparams.learning_rate
        hidden_units := [10, 20, 10]
        num_classes := 3 }
    .ok
      { run_config := run_config
        train_spec := train_spec
        eval_spec := eval_spec
        estimator := estimator }

/-! ## Helper definitions and lemmas shared by the theorems -/

/-- Concrete stand-in for the external JSON parser, defined on the two
documents the theorems instantiate it at: the empty object, and
everything else as a decode error. -/
def parseEmptyOnly (s : String) : Except String Json :=
  if s = "{}" then .ok (Json.obj []) else .error "Expecting value"

/-- Logging state of a fresh Python process just before `_setup_logging`
runs: no handler on the root logger, root level `WARNING` (30), one
stderr handler installed by the framework on the `tensorflow` logger,
and the `TF_CPP_MIN_LOG_LEVEL` variable unset. -/
def initialLoggingState : LoggingState :=
  { rootHandlers := []
    rootLevel := 30
    tfHandlers := [{ stream := .stderr, level := INFO }]
    tfCppMinLogLevel := none }

theorem hasField_of_lookup {fields : List (String × Json)} {k : String} {v : Json}
    (h : List.lookup k fields = some v) : hasField fields k = true := by
  induction fields with
  | nil => simp [List.lookup] at h
  | cons p rest ih =>
    rw [List.lookup] at h
    by_cases hk : k = p.1
    · simp [hasField, hk.symm]
    · have hb : (k == p.1) = false := by simp [hk]
      rw [hb] at h
      have ht := ih h
      simp only [hasField] at ht ⊢
      simp [List.any_cons, ht]

theorem eqStr_false_of_ne {j : Json} {s : String} (h : j ≠ Json.str s) :
    j.eqStr s = false := by
  cases j <;> simp [Json.eqStr]
  intro he
  exact h (by rw [he])
/-! ## Claim theorems -/

/-- C1 (counterexample): for the concrete specification with task type
`master` and index 0, the derivation returns the filters with a leading
slash, `/job:ps` and `/job:master`, and that filter list equals neither
ordering of the claimed set of slash-less strings `job:ps`,
`job:master`. -/
theorem c1_counterexample :
    sessionConfigFromTfConfig (taskSpec (Json.str "master") (Json.num 0)) =
      .ok (some { device_filters := ["/job:ps", "/job:master"] }) ∧
    (["/job:ps", "/job:master"] : List String) ≠ ["job:ps", "job:master"] ∧
    (["/job:ps", "/job:master"] : List String) ≠ ["job:master", "job:ps"] :=
  ⟨rfl, by decide, by decide⟩

/-- C1 (amended): for every cluster specification of the form
`{"task": {"type": "master", "index": N}}` — for any JSON value in the
index position — the device-filter derivation returns exactly the two
filter strings `/job:ps` and `/job:master`. -/
theorem c1_master_filters (idx : Json) :
    sessionConfigFromTfConfig (taskSpec (Json.str "master") idx) =
      .ok (some { device_filters := ["/job:ps", "/job:master"] }) := rfl

/-- C1 (witness): the amended theorem applied at the concrete index 0. -/
theorem c1_master_filters_witness :
    sessionConfigFromTfConfig (taskSpec (Json.str "master") (Json.num 0)) =
      .ok (some { device_filters := ["/job:ps", "/job:master"] }) :=
  c1_master_filters (Json.num 0)

/-- C2 (counterexample): for the concrete specification with task type
`worker` and index 3, the derivation returns the filters `/job:ps` and
`/job:worker/task:3` — each with a leading slash — and that filter list
equals neither ordering of the claimed set of slash-less strings. -/
theorem c2_counterexample :
    sessionConfigFromTfConfig (taskSpec (Json.str "worker") (Json.num 3)) =
      .ok (some { device_filters := ["/job:ps", "/job:worker/task:3"] }) ∧
    (["/job:ps", "/job:worker/task:3"] : List String) ≠ ["job:ps", "job:worker/task:3"] ∧
    (["/job:ps", "/job:worker/task:3"] : List String) ≠ ["job:worker/task:3", "job:ps"] :=
  ⟨rfl, by decide, by decide⟩

/-- C2 (amended): for every cluster specification of the form
`{"task": {"type": "worker", "index": i}}` with integer index `i`, the
derivation returns exactly the two filter strings `/job:ps` and
`/job:worker/task:<i>`; the index enters only as the decimal suffix of
the second filter, so changing the index changes only that component. -/
theorem c2_worker_filters (i : Int) :
    sessionConfigFromTfConfig (taskSpec (Json.str "worker") (Json.num i)) =
      .ok (some { device_filters := ["/job:ps", "/job:worker/task:" ++ toString i] }) := rfl

/-- C2 (witness): the amended theorem applied at the concrete indices 3
and 7, whose filter lists differ only in the task-index component. -/
theorem c2_worker_filters_witness :
    sessionConfigFromTfConfig (taskSpec (Json.str "worker") (Json.num 3)) =
      .ok (some { device_filters := ["/job:ps", "/job:worker/task:3"] }) ∧
    sessionConfigFromTfConfig (taskSpec (Json.str "worker") (Json.num 7)) =
      .ok (some { device_filters := ["/job:ps", "/job:worker/task:7"] }) :=
  ⟨c2_worker_filters 3, c2_worker_filters 7⟩
/-- C3 (counterexample): from the fresh process state, one invocation of
the logging setup leaves one emitting handler, but a second invocation
leaves two — a single subsequent log call at INFO level then produces
two lines, so the second invocation does change the set of handlers
that will emit a message. -/
theorem c3_counterexample :
    (emittingHandlers (setup_logging initialLoggingState)).length = 1 ∧
    (emittingHandlers (setup_logging (setup_logging initialLoggingState))).length = 2 :=
  ⟨rfl, rfl⟩

/-- C3 (amended): invoking the logging setup twice in succession from
any logging state leaves two freshly appended stdout handlers on the
root logger — one per invocation — so the second invocation adds one
more handler that will emit a message: a single subsequent INFO log
call produces one more (duplicate) line than after a single
invocation.  Only the tensorflow logger's handler list is cleared. -/
theorem c3_double_setup_not_idempotent (s : LoggingState) :
    (setup_logging (setup_logging s)).rootHandlers =
      s.rootHandlers ++
        [{ stream := .stdout, level := INFO }, { stream := .stdout, level := INFO }] ∧
    (setup_logging (setup_logging s)).tfHandlers = [] ∧
    (emittingHandlers (setup_logging (setup_logging s))).length =
      (emittingHandlers (setup_logging s)).length + 1 := by
  refine ⟨by simp [setup_logging], rfl, ?_⟩
  simp [emittingHandlers, setup_logging, INFO, List.filter_append]

/-- C3 (witness): the amended theorem applied at the fresh process
state, where the handler counts after one and two invocations are 1
and 2. -/
theorem c3_double_setup_witness :
    (setup_logging (setup_logging initialLoggingState)).rootHandlers =
      [{ stream := .stdout, level := INFO }, { stream := .stdout, level := INFO }] ∧
    (emittingHandlers (setup_logging (setup_logging initialLoggingState))).length =
      (emittingHandlers (setup_logging initialLoggingState)).length + 1 :=
  ⟨(c3_double_setup_not_idempotent initialLoggingState).1,
   (c3_double_setup_not_idempotent initialLoggingState).2.2⟩
/-- C4: for every cluster specification that is an empty object, lacks a
`task` field, or whose `task` object lacks a `type` or an `index`
field, the derivation returns no restriction; and when the `TF_CONFIG`
environment variable is absent, the default empty-object document also
yields no restriction (for any parser that reads the empty-object
document as the empty object). -/
theorem c4_no_restriction (parse : String → Except String Json) (cfg : Json)
    (hparse : parse "{}" = .ok (Json.obj []))
    (hcfg : cfg = Json.obj [] ∨
      (∃ fields, cfg = Json.obj fields ∧ hasField fields "task" = false) ∨
      (∃ fields tfields, cfg = Json.obj fields ∧
        List.lookup "task" fields = some (Json.obj tfields) ∧
        (hasField tfields "type" = false ∨ hasField tfields "index" = false))) :
    sessionConfigFromTfConfig cfg = .ok none ∧
    get_session_config_from_env_var parse none = .ok none := by
  constructor
  · rcases hcfg with h | ⟨fields, rfl, hf⟩ | ⟨fields, tfields, rfl, hlk, hmiss⟩
    · subst h
      rfl
    · cases fields with
      | nil => rfl
      | cons p rest =>
        simp [sessionConfigFromTfConfig, Json.truthy, membIn, hf]
    · cases fields with
      | nil => simp [List.lookup] at hlk
      | cons p rest =>
        have htask : hasField (p :: rest) "task" = true := hasField_of_lookup hlk
        rcases hmiss with hm | hm <;>
          by_cases hty : hasField tfields "type" <;>
          simp_all [sessionConfigFromTfConfig, Json.truthy, membIn, Json.getItem, hlk]
  · simp [get_session_config_from_env_var, hparse]
    rfl

/-- C4 (witness): the theorem applied with the concrete parser at the
empty-object specification. -/
theorem c4_no_restriction_witness :
    sessionConfigFromTfConfig (Json.obj []) = .ok none ∧
    get_session_config_from_env_var parseEmptyOnly none = .ok none :=
  c4_no_restriction parseEmptyOnly (Json.obj []) rfl (Or.inl rfl)
/-- C5: for every cluster specification with `task.type` and
`task.index` present but the type equal to any value other than the
strings `master` and `worker` (for example `chief`), the derivation
falls through and returns no restriction. -/
theorem c5_other_type_no_restriction (ty idx : Json)
    (h1 : ty ≠ Json.str "master") (h2 : ty ≠ Json.str "worker") :
    sessionConfigFromTfConfig (taskSpec ty idx) = .ok none := by
  have e1 := eqStr_false_of_ne h1
  have e2 := eqStr_false_of_ne h2
  simp [sessionConfigFromTfConfig, taskSpec, Json.truthy, membIn, Json.getItem,
    hasField, List.lookup, e1, e2]

/-- C5 (witness): the theorem applied at the concrete type `chief` with
index 0. -/
theorem c5_other_type_witness :
    sessionConfigFromTfConfig (taskSpec (Json.str "chief") (Json.num 0)) = .ok none :=
  c5_other_type_no_restriction (Json.str "chief") (Json.num 0)
    (by simp) (by simp)

/-- C6: parsing a command line that supplies only the three required
flags — any training file list, evaluation file list and job
directory — yields the argument record in which every optional field
carries its documented default: train-steps 400, eval-steps 100,
num-epochs 200, learning-rate 0.01, train-batch-size 32,
eval-batch-size 32. -/
theorem c6_required_only_defaults (tf ef : List String) (jd : String) :
    get_args
      { train_files := some tf
        eval_files := some ef
        job_dir := some jd
        train_steps := none
        eval_steps := none
        num_epochs := none
        learning_rate := none
        train_batch_size := none
        eval_batch_size := none } =
    .ok
      { train_files := tf
        eval_files := ef
        job_dir := jd
        train_steps := 400
        eval_steps := 100
        num_epochs := 200
        learning_rate := 0.01
        train_batch_size := 32
        eval_batch_size := 32 } := rfl

/-- C6 (witness): the theorem applied at the spec's example command
line. -/
theorem c6_required_only_defaults_witness :
    get_args
      { train_files := some ["a.csv"]
        eval_files := some ["b.csv"]
        job_dir := some "/tmp/out"
        train_steps := none
        eval_steps := none
        num_epochs := none
        learning_rate := none
        train_batch_size := none
        eval_batch_size := none } =
    .ok
      { train_files := ["a.csv"]
        eval_files := ["b.csv"]
        job_dir := "/tmp/out"
        train_steps := 400
        eval_steps := 100
        num_epochs := 200
        learning_rate := 0.01
        train_batch_size := 32
        eval_batch_size := 32 } :=
  c6_required_only_defaults ["a.csv"] ["b.csv"] "/tmp/out"

/-- C7: parsing a command line that omits any of the three required
flags produces a usage error — the embedded process exit with non-zero
status — and no argument record is produced. -/
theorem c7_missing_required_errors (cli : CliInput)
    (h : cli.train_files = none ∨ cli.eval_files = none ∨ cli.job_dir = none) :
    (∃ msg, get_args cli = .error msg) ∧ ∀ hp, get_args cli ≠ .ok hp := by
  obtain ⟨a, b, c, d, e, f, g, i, j⟩ := cli
  cases a <;> cases b <;> cases c <;> simp_all [get_args]

/-- C7 (witness): the theorem applied at the command line that omits
every flag. -/
theorem c7_missing_required_witness :
    (∃ msg,
      get_args
        { train_files := none
          eval_files := none
          job_dir := none
          train_steps := none
          eval_steps := none
          num_epochs := none
          learning_rate := none
          train_batch_size := none
          eval_batch_size := none } = .error msg) ∧
    ∀ hp,
      get_args
        { train_files := none
          eval_files := none
          job_dir := none
          train_steps := none
          eval_steps := none
          num_epochs := none
          learning_rate := none
          train_batch_size := none
          eval_batch_size := none } ≠ .ok hp :=
  c7_missing_required_errors
    { train_files := none
      eval_files := none
      job_dir := none
      train_steps := none
      eval_steps := none
      num_epochs := none
      learning_rate := none
      train_batch_size := none
      eval_batch_size := none } (Or.inl rfl)
/-- C8: for every argument record, whenever the session-configuration
derivation succeeds, the orchestration assembles a run configuration
with checkpoint and summary save intervals of 100 steps and the job
directory as model directory; a training specification over the
training files and training batch size with shuffling enabled, bounded
by the training step limit; an evaluation specification over the
evaluation files and evaluation batch size with shuffling disabled,
bounded by the evaluation step count and carrying the final exporter
named `exporter`; and an estimator built from that run configuration
with hidden-layer widths 10, 20, 10, class count 3, and the record's
learning rate. -/
theorem c8_orchestration (parse : String → Except String Json) (env : Option String)
    (hparams : Hyperparameters) (sc : Option ConfigProto)
    (hsc : get_session_config_from_env_var parse env = .ok sc) :
    train_and_evaluate parse env hparams =
      .ok
        { run_config :=
            { session_config := sc
              save_checkpoints_steps := 100
              save_summary_steps := 100
              model_dir := hparams.job_dir }
          train_spec :=
            { input_fn :=
                { filename := hparams.train_files
                  batch_size := hparams.train_batch_size
                  shuffle := true }
              max_steps := hparams.train_steps }
          eval_spec :=
            { input_fn :=
                { filename := hparams.eval_files
                  batch_size := hparams.eval_batch_size
                  shuffle := false }
              steps := hparams.eval_steps
              exporters := [{ name := "exporter" }]
              name := "iris-eval" }
          estimator :=
            { config :=
                { session_config := sc
                  save_checkpoints_steps := 100
                  save_summary_steps := 100
                  model_dir := hparams.job_dir }
              learning_rate := hparams.learning_rate
              hidden_units := [10, 20, 10]
              num_classes := 3 } } := by
  simp [train_and_evaluate, hsc]

/-- C8 (witness): the theorem applied with the concrete parser, an
absent environment variable, and a concrete argument record. -/
theorem c8_orchestration_witness :
    train_and_evaluate parseEmptyOnly none
      { train_files := ["a.csv"]
        eval_files := ["b.csv"]
        job_dir := "/tmp/out"
        train_steps := 400
        eval_steps := 100
        num_epochs := 200
        learning_rate := 0.01
        train_batch_size := 32
        eval_batch_size := 32 } =
    .ok
      { run_config :=
          { session_config := none
            save_checkpoints_steps := 100
            save_summary_steps := 100
            model_dir := "/tmp/out" }
        train_spec :=
          { input_fn := { filename := ["a.csv"], batch_size := 32, shuffle := true }
            max_steps := 400 }
        eval_spec :=
          { input_fn := { filename := ["b.csv"], batch_size := 32, shuffle := false }
            steps := 100
            exporters := [{ name := "exporter" }]
            name := "iris-eval" }
        estimator :=
          { config :=
              { session_config := none
                save_checkpoints_steps := 100
                save_summary_steps := 100
                model_dir := "/tmp/out" }
            learning_rate := 0.01
            hidden_units := [10, 20, 10]
            num_classes := 3 } } :=
  c8_orchestration parseEmptyOnly none
    { train_files := ["a.csv"]
      eval_files := ["b.csv"]
      job_dir := "/tmp/out"
      train_steps := 400
      eval_steps := 100
      num_epochs := 200
      learning_rate := 0.01
      train_batch_size := 32
      eval_batch_size := 32 } none rfl

/-- C9: whenever the `TF_CONFIG` environment variable holds a document
the JSON parser rejects, the derivation propagates the decode error and
returns no policy at all, neither a filter set nor a no-restriction
result. -/
theorem c9_parse_error_propagates (parse : String → Except String Json)
    (doc msg : String) (h : parse doc = .error msg) :
    get_session_config_from_env_var parse (some doc) =
      .error (.jsonDecodeError msg) ∧
    ∀ r, get_session_config_from_env_var parse (some doc) ≠ .ok r := by
  simp [get_session_config_from_env_var, h]

/-- C9 (witness): the theorem applied with the concrete parser at a
malformed document. -/
theorem c9_parse_error_witness :
    get_session_config_from_env_var parseEmptyOnly (some "not json") =
      .error (.jsonDecodeError "Expecting value") ∧
    ∀ r, get_session_config_from_env_var parseEmptyOnly (some "not json") ≠ .ok r :=
  c9_parse_error_propagates parseEmptyOnly "not json" "Expecting value" rfl

/-- C10 (counterexample): at the cluster specification with task type
`worker` and the non-integer index `true`, the derivation does not
raise: Python booleans are integers for `%d` formatting, so it returns
the filter policy with `/job:worker/task:1` — refuting the claim that
every non-integer index makes the worker branch raise. -/
theorem c10_counterexample :
    sessionConfigFromTfConfig (taskSpec (Json.str "worker") (Json.bool true)) =
      .ok (some { device_filters := ["/job:ps", "/job:worker/task:1"] }) := rfl

/-- C10 (amended): for every cluster specification with task type
`worker` and the index present but a JSON string, null, array, or
object — for example the string `3` — the worker branch's `%d`
formatting raises a `TypeError` instead of returning a filter policy
(boolean and integer indices are the values the formatting accepts). -/
theorem c10_nonnumeric_index_raises (idx : Json)
    (h : (∃ s, idx = Json.str s) ∨ idx = Json.null ∨
      (∃ elems, idx = Json.arr elems) ∨ (∃ fields, idx = Json.obj fields)) :
    sessionConfigFromTfConfig (taskSpec (Json.str "worker") idx) =
      .error .typeError := by
  rcases h with ⟨s, rfl⟩ | rfl | ⟨elems, rfl⟩ | ⟨fields, rfl⟩ <;> rfl

/-- C10 (witness): the amended theorem applied at the string index
`3`. -/
theorem c10_nonnumeric_index_witness :
    sessionConfigFromTfConfig (taskSpec (Json.str "worker") (Json.str "3")) =
      .error .typeError :=
  c10_nonnumeric_index_raises (Json.str "3") (Or.inl ⟨"3", rfl⟩)
